import Mathlib

/-!
Verification of the rule-table evaluation engine of the billing repository:
the XLSX DMN rule processor (`services/rating/xlsx_dmn_processor.py`) and the
XLSX price loader (`services/rating/xlsx_price_loader.py`).

The Python code is shallowly embedded: spreadsheet cells are `Option String`
(`none` for an empty cell; Python's `str(...)` conversion is the identity in
the model), Python's truthiness of a cell is `truthy`, Python float values
arising from decimal literals are modelled exactly by `Dec` (an integer
mantissa with a power-of-ten denominator, interpreted in `ℚ` by `Dec.toRat`),
and code paths that catch exceptions are modelled with `Except`/`Option`.
String helpers (`strip`, `strip('"')`, `split('..')`, `lower`, ...) are
re-implemented structurally over `List Char` so that every definition is
executable by kernel reduction.
-/

/-! ## Python string and value helpers -/

/-- Python truthiness of a cell value: `None` and `""` are falsy. -/
def truthy : Option String → Bool
  | none => false
  | some s => s ≠ ""

/-- The double-quote character. -/
def quoteChar : Char := Char.ofNat 34

/-- The single-quote character. -/
def aposChar : Char := Char.ofNat 39

/-- Python `str.strip()` on a character list: drop whitespace from both ends. -/
def pyStripCh (cs : List Char) : List Char :=
  ((cs.dropWhile Char.isWhitespace).reverse.dropWhile Char.isWhitespace).reverse

/-- Python `str.strip()`. -/
def pyStrip (s : String) : String := String.mk (pyStripCh s.toList)

/-- Python `str.strip(chars)`: drop any of the given characters from both ends. -/
def stripAnyCh (chars : List Char) (cs : List Char) : List Char :=
  ((cs.dropWhile (chars.contains ·)).reverse.dropWhile (chars.contains ·)).reverse

/-- Python `str.strip('"')`. -/
def stripQuotes (s : String) : String := String.mk (stripAnyCh [quoteChar] s.toList)

/-- Python `str.strip('"\'')` (as used on rule cells in `evaluate_weight_class`). -/
def stripQuotesApos (s : String) : String :=
  String.mk (stripAnyCh [quoteChar, aposChar] s.toList)

/-- Python `str.strip('[]')` (as used on range cells). -/
def stripSqBrackets (cs : List Char) : List Char :=
  stripAnyCh [Char.ofNat 91, Char.ofNat 93] cs

/-- Python `str.lower()` (ASCII lowering suffices for the tokens compared). -/
def pyLower (s : String) : String := String.mk (s.toList.map Char.toLower)

/-- Python `'..' in s`. -/
def hasDotDot : List Char → Bool
  | '.' :: '.' :: _ => true
  | _ :: rest => hasDotDot rest
  | [] => false

/-- Python `s.split('..')`: split on non-overlapping occurrences, left to right. -/
def splitDotDot : List Char → List (List Char)
  | '.' :: '.' :: rest => [] :: splitDotDot rest
  | c :: rest =>
    match splitDotDot rest with
    | [] => [[c]]
    | p :: ps => (c :: p) :: ps
  | [] => [[]]

/-- Python `s.startswith(p)` for a character-list pattern. -/
def startsWithCh : List Char → List Char → Bool
  | [], _ => true
  | _ :: _, [] => false
  | p :: ps, c :: cs => p == c && startsWithCh ps cs

/-- Python `s.replace('-', '')`: remove all dashes. -/
def removeDashes (s : String) : String := String.mk (s.toList.filter (· ≠ '-'))

/-- The numeric value of a digit list (most significant first). -/
def natOfDigits (cs : List Char) : Nat :=
  cs.foldl (fun n c => n * 10 + (c.toNat - 48)) 0

/-- Apply an optional leading minus sign to a parsed magnitude. -/
def intSign (neg : Bool) (n : Nat) : Int := if neg then -(n : Int) else (n : Int)

/-!
## Exact decimal numbers

Python's `float(...)` on table cells only ever sees decimal literals in this
code base; `Dec` models such a value exactly as `num / 10 ^ exp`.  All
comparisons are cross-multiplied integer comparisons, so they evaluate by
kernel reduction; `Dec.toRat` interprets a `Dec` in `ℚ` and the `_iff` lemmas
show the boolean comparisons agree with the rational order.
-/

structure Dec where
  num : Int
  exp : Nat
deriving DecidableEq, Repr

/-- The rational value of a decimal. -/
def Dec.toRat (a : Dec) : ℚ := (a.num : ℚ) / 10 ^ a.exp

/-- Boolean `a ≤ b` on decimals. -/
def Dec.ble (a b : Dec) : Bool := a.num * 10 ^ b.exp ≤ b.num * 10 ^ a.exp

/-- Boolean `a < b` on decimals. -/
def Dec.blt (a b : Dec) : Bool := a.num * 10 ^ b.exp < b.num * 10 ^ a.exp

/-- Boolean value equality on decimals. -/
def Dec.beqv (a b : Dec) : Bool := a.num * 10 ^ b.exp == b.num * 10 ^ a.exp

/-- Division by 1000 (exact), as in the kg → tons conversion. -/
def Dec.div1000 (a : Dec) : Dec := ⟨a.num, a.exp + 3⟩

/-- Multiplication by an integer, as in per-unit price × quantity. -/
def Dec.mulInt (a : Dec) (q : Int) : Dec := ⟨a.num * q, a.exp⟩

theorem Dec.ble_iff (a b : Dec) : a.ble b = true ↔ a.toRat ≤ b.toRat := by
  unfold Dec.ble Dec.toRat
  rw [div_le_div_iff₀ (by positivity) (by positivity), decide_eq_true_eq]
  exact ⟨fun h => by exact_mod_cast h, fun h => by exact_mod_cast h⟩

theorem Dec.blt_iff (a b : Dec) : a.blt b = true ↔ a.toRat < b.toRat := by
  unfold Dec.blt Dec.toRat
  rw [div_lt_div_iff₀ (by positivity) (by positivity), decide_eq_true_eq]
  exact ⟨fun h => by exact_mod_cast h, fun h => by exact_mod_cast h⟩

theorem Dec.beqv_iff (a b : Dec) : a.beqv b = true ↔ a.toRat = b.toRat := by
  unfold Dec.beqv Dec.toRat
  rw [div_eq_div_iff (by positivity) (by positivity), beq_iff_eq]
  exact ⟨fun h => by exact_mod_cast h, fun h => by exact_mod_cast h⟩

/-- Python `float(s)` on a decimal literal: optional sign, digits, at most one
dot, at least one digit; anything else raises (`none`).  (Exponent notation and
special values never occur in the rule tables and are not modelled.) -/
def parseFloatCh (cs : List Char) : Option Dec :=
  let t := pyStripCh cs
  let sgnSplit : Bool × List Char :=
    match t with
    | '-' :: r => (true, r)
    | '+' :: r => (false, r)
    | _ => (false, t)
  let neg := sgnSplit.1
  let rest := sgnSplit.2
  let intPart := rest.takeWhile Char.isDigit
  let rest2 := rest.dropWhile Char.isDigit
  match rest2 with
  | [] =>
    if intPart.isEmpty then none
    else some ⟨intSign neg (natOfDigits intPart), 0⟩
  | '.' :: frac =>
    if frac.all Char.isDigit && !(intPart.isEmpty && frac.isEmpty) then
      some ⟨intSign neg (natOfDigits intPart * 10 ^ frac.length + natOfDigits frac),
            frac.length⟩
    else none
  | _ => none

/-- Python `float(s)` on a string. -/
def parseFloat (s : String) : Option Dec := parseFloatCh s.toList

/-- Python `int(s)`: optional sign, all digits (whitespace stripped); anything
else raises (`none`). -/
def pyToInt (s : String) : Option Int :=
  let t := pyStripCh s.toList
  let sgnSplit : Bool × List Char :=
    match t with
    | '-' :: r => (true, r)
    | '+' :: r => (false, r)
    | _ => (false, t)
  let rest := sgnSplit.2
  if rest ≠ [] && rest.all Char.isDigit then some (intSign sgnSplit.1 (natOfDigits rest))
  else none

/-! ## Dictionary helpers (Python `dict` built by keyed assignment) -/

/-- Lookup in an association list (Python `d[k]` / `k in d`). -/
def alookup {β : Type} (d : List (String × β)) (k : String) : Option β :=
  (d.find? (fun p => p.1 == k)).map (fun p => p.2)

/-- Python `d[k] = v`: overwrite any previous binding. -/
def dset {β : Type} (d : List (String × β)) (k : String) (v : β) : List (String × β) :=
  (k, v) :: d.filter (fun p => p.1 ≠ k)

/-!
## `XLSXDMNProcessor._evaluate_weight_condition`

Faithful translation of `_evaluate_weight_condition` (xlsx_dmn_processor.py,
lines 311–389).  Every `except` branch of the Python code returns `False`,
which the model reproduces through the `none` cases of the numeric parsers.
-/

def evalWeightCondition (actualWeight : Dec) (ruleCondition : String) : Bool :=
  if ruleCondition = "-" ∨ ruleCondition = "" then true
  else
    let c : List Char := pyStripCh ruleCondition.toList
    if hasDotDot c then
      -- range expressions like "[10..20]", "]10..20]", "[10..20[", ...
      let leftInclusive := c.head? == some (Char.ofNat 91)
      let rightInclusive := c.getLast? == some (Char.ofNat 93)
      match splitDotDot (stripSqBrackets c) with
      | [p1, p2] =>
        match parseFloatCh (pyStripCh p1), parseFloatCh (pyStripCh p2) with
        | some lower, some upper =>
          if leftInclusive && rightInclusive then
            lower.ble actualWeight && actualWeight.ble upper
          else if leftInclusive && !rightInclusive then
            lower.ble actualWeight && actualWeight.blt upper
          else if !leftInclusive && rightInclusive then
            lower.blt actualWeight && actualWeight.ble upper
          else
            lower.blt actualWeight && actualWeight.blt upper
        | _, _ => false
      | _ => false
    else if startsWithCh ['<', '='] c then
      match parseFloatCh (pyStripCh (c.drop 2)) with
      | some threshold => actualWeight.ble threshold
      | none => false
    else if startsWithCh ['>', '='] c then
      match parseFloatCh (pyStripCh (c.drop 2)) with
      | some threshold => threshold.ble actualWeight
      | none => false
    else if startsWithCh ['<'] c then
      match parseFloatCh (pyStripCh (c.drop 1)) with
      | some threshold => actualWeight.blt threshold
      | none => false
    else if startsWithCh ['>'] c then
      match parseFloatCh (pyStripCh (c.drop 1)) with
      | some threshold => threshold.blt actualWeight
      | none => false
    else if startsWithCh ['='] c then
      match parseFloatCh (pyStripCh (c.drop 1)) with
      | some threshold => actualWeight.beqv threshold
      | none => false
    else
      match parseFloatCh c with
      | some threshold => actualWeight.beqv threshold
      | none => false

/-!
## Rules extracted from parsed sheets

`_extract_rules_from_sheet` builds, for each data row, a dict of conditions
and a dict of outputs (both map header → cleaned cell value and are in fact
built identically).  `RuleT` mirrors that rule dictionary.
-/

structure RuleT where
  sheet : String
  ruleId : String
  conditions : List (String × String)
  outputs : List (String × String)
  rawRow : List String
deriving DecidableEq, Repr

/-- First field name from `fields` that is present in the dict (Python
`for f in fields: if f in d: ...; break`), with its value. -/
def firstPresent (d : List (String × String)) (fields : List String) : Option String :=
  fields.findSome? (fun f => alookup d f)

/-!
## `XLSXDMNProcessor.evaluate_trip_type` (lines 210–239)
-/

def truckingCodeFields : List String := ["Trucking Code", "TruckingCode", "Trucking_Code"]

def tripTypeFields : List String := ["TypeOfTrip", "Trip Type", "Type Of Trip", "Fahrttyp"]

/-- Result contributed by one rule in `evaluate_trip_type`'s scan: the first
trucking-code column present whose value equals the context's code yields the
first trip-type output present (the Python loop keeps trying further
trucking-code column names when the value differs or no output column exists). -/
def ttRuleResult (truckingCode : String) (r : RuleT) : Option String :=
  truckingCodeFields.findSome? (fun tcField =>
    match alookup r.conditions tcField with
    | none => none
    | some ruleCode =>
      if ruleCode = truckingCode then tripTypeFields.findSome? (alookup r.outputs)
      else none)

/-- `evaluate_trip_type`: first matching rule's trip type; when no rule
matches, the hard-coded default `"Zustellung"` is returned (not `None`). -/
def evaluate_trip_type (rules : List RuleT) (truckingCode : String) : Option String :=
  match rules.findSome? (ttRuleResult truckingCode) with
  | some result => some result
  | none => some "Zustellung"

/-!
## `XLSXDMNProcessor.evaluate_weight_class` (lines 241–309)
-/

def preisrasterFields : List String := ["Preisraster", "Price Grid", "Grid"]

def lengthFields : List String := ["Länge", "Laenge", "Length", "Container Length"]

def weightFields : List String := ["Gewicht", "Weight", "GrossWeight", "Gross Weight"]

def classFields : List String := ["WeightClass", "Weight Class", "Gewichtsklasse", "Classification"]

/-- Preisraster condition: defaults to `true`; the first preisraster column
present (the Python loop breaks after the first hit) constrains the match only
when its stripped value is neither `-` nor empty. -/
def wcPreisrasterMatch (preisraster : String) (r : RuleT) : Bool :=
  match firstPresent r.conditions preisrasterFields with
  | none => true
  | some v =>
    let rp := stripQuotesApos v
    if rp ≠ "-" ∧ rp ≠ "" then rp == preisraster else true

/-- Length condition: some length column present whose stripped value equals
the container length or is the wildcard `-`. -/
def wcLengthMatch (containerLength : String) (r : RuleT) : Bool :=
  lengthFields.any (fun lf =>
    match alookup r.conditions lf with
    | some v => stripQuotesApos v == containerLength || stripQuotesApos v == "-"
    | none => false)

/-- Weight condition: some weight column present whose FEEL expression accepts
the weight (in tons). -/
def wcWeightMatch (weightTons : Dec) (r : RuleT) : Bool :=
  weightFields.any (fun wf =>
    match alookup r.conditions wf with
    | some v => evalWeightCondition weightTons v
    | none => false)

/-- Result contributed by one rule in `evaluate_weight_class`'s scan: when all
three conditions match, the first weight-class output column present is
returned; a matching rule without any class output yields nothing and the scan
continues. -/
def wcRuleResult (containerLength : String) (weightTons : Dec) (preisraster : String)
    (r : RuleT) : Option String :=
  if wcPreisrasterMatch preisraster r && wcLengthMatch containerLength r &&
      wcWeightMatch weightTons r then
    classFields.findSome? (alookup r.outputs)
  else none

/-- `evaluate_weight_class`: the gross weight (kg) is converted to tons, rules
are scanned in source order, and the first rule matching all conditions
returns its classification; no match yields `none`. -/
def evaluate_weight_class (rules : List RuleT) (containerLength : String)
    (grossWeight : Dec) (preisraster : String) : Option String :=
  rules.findSome? (wcRuleResult containerLength grossWeight.div1000 preisraster)

/-!
## `XLSXDMNProcessor.evaluate_service_determination` (legacy, lines 391–444)
-/

def verkehrsformFields : List String := ["Verkehrsform", "Transport Type", "TransportType"]

def gefahrgutFields : List String := ["Gefahrgut", "Dangerous Goods", "DangerousGoods"]

def serviceFields : List String := ["AdditionalServiceCode", "Service Code", "ServiceCode"]

/-- Verkehrsform condition of the legacy method: defaults to `true`; the first
column present constrains the match unless its value is `-` or empty. -/
def legacyVerkehrsformMatch (verkehrsform : String) (r : RuleT) : Bool :=
  match firstPresent r.conditions verkehrsformFields with
  | none => true
  | some v => if v ≠ "-" ∧ v ≠ "" then v == verkehrsform else true

/-- Gefahrgut condition of the legacy method: the rule value is converted to a
boolean (`true`/`1`/`yes`, lower-cased) and compared with the context flag. -/
def legacyGefahrgutMatch (gefahrgut : Bool) (r : RuleT) : Bool :=
  match firstPresent r.conditions gefahrgutFields with
  | none => true
  | some v =>
    if v ≠ "-" ∧ v ≠ "" then
      (["true", "1", "yes"].contains (pyLower v)) == gefahrgut
    else true

/-- `evaluate_service_determination` (legacy): collects the integer service
codes of every matching rule but **deduplicates** them (`if service_int not in
applicable_services`), skipping non-integer codes. -/
def evaluate_service_determination (rules : List RuleT) (verkehrsform : String)
    (gefahrgut : Bool) : List Int :=
  rules.foldl (fun acc r =>
    if legacyVerkehrsformMatch verkehrsform r && legacyGefahrgutMatch gefahrgut r then
      serviceFields.foldl (fun acc2 sf =>
        match alookup r.outputs sf with
        | some serviceCode =>
          match pyToInt serviceCode with
          | some serviceInt => if acc2.contains serviceInt then acc2 else acc2 ++ [serviceInt]
          | none => acc2
        | none => acc2) acc
    else acc) []

/-!
## `XLSXDMNProcessor.evaluate_service_determination_full` (lines 446–626)

The function reads `4_Regeln_Leistungsermittlung.xlsx` directly: row 1 holds
headers, each later row holds the 13 columns below (absent trailing cells are
`None`).  `SDRow` mirrors one such row; `SDCtx` mirrors the `order_context`
dict (string fields default to `''` via `order_context.get(key, '')`,
`dangerous_goods` defaults to `False`, `service_date` has no default).
-/

structure SDRow where
  leistung : Option String          -- 0: Leistung
  ladezustand : Option String       -- 1: Ladezustand
  verkehrsform : Option String      -- 2: Verkehrsform
  gefahrgut : Option String         -- 3: Gefahrgut vorhanden
  zollverfahren : Option String     -- 4: Zollverfahren
  landVersand : Option String       -- 5: Land Bahnstelle Versand
  bahnhofVersand : Option String    -- 6: Bahnstellennummer Versand
  landEmpfang : Option String       -- 7: Land Bahnstelle Empfang
  bahnhofEmpfang : Option String    -- 8: Bahnstellenummer Empfang
  gueltigVon : Option String        -- 9: gültig von
  gueltigBis : Option String        -- 10: gültig bis
  ngbCode : Option String           -- 11: NGB-Code
  ngbName : Option String           -- 12: NGB-Name (DE)
deriving DecidableEq, Repr

structure SDCtx where
  serviceType : String
  loadingStatus : String
  transportType : String
  dangerousGoods : Bool
  customsProcedure : String
  departureCountry : String
  departureStation : String
  destinationCountry : String
  destinationStation : String
  serviceDate : Option String
deriving DecidableEq, Repr

/-- Python `any(row_values)` over the 13 cells. -/
def sdAnyCell (r : SDRow) : Bool :=
  truthy r.leistung || truthy r.ladezustand || truthy r.verkehrsform ||
  truthy r.gefahrgut || truthy r.zollverfahren || truthy r.landVersand ||
  truthy r.bahnhofVersand || truthy r.landEmpfang || truthy r.bahnhofEmpfang ||
  truthy r.gueltigVon || truthy r.gueltigBis || truthy r.ngbCode || truthy r.ngbName

/-- The generic string condition of `evaluate_service_determination_full`:
`if rule_x and str(rule_x).strip().strip('"'): if str(rule_x).strip('"') !=
order_x: matches = False`.  Note the guard strips whitespace before quotes but
the compared value strips quotes only. -/
def strCondOk (fact : String) (cell : Option String) : Bool :=
  if truthy cell && (stripQuotes (pyStrip (cell.getD "")) != "") then
    stripQuotes (cell.getD "") == fact
  else true

/-- The transport-type condition (lines 554–560): a rule cell cleaning to
`"KV"` can never fail the test, every other cell is an exact-equality filter.
Mirrors `if rule_transport_clean not in [order_transport, 'KV'] and
order_transport != rule_transport_clean: matches = False`. -/
def transportOk (orderTransport : String) (cell : Option String) : Bool :=
  if truthy cell && (stripQuotes (pyStrip (cell.getD "")) != "") then
    let clean := stripQuotes (cell.getD "")
    !(!([orderTransport, "KV"].contains clean) && (orderTransport != clean))
  else true

/-- The dangerous-goods condition (lines 563–565): only a rule cell lowering
to `"true"` constrains the context. -/
def dangerousOk (orderDangerous : Bool) (cell : Option String) : Bool :=
  if truthy cell && (pyLower (cell.getD "") == "true") then orderDangerous else true

/-- The date-window condition (lines 597–609): it runs only when **both**
`gültig von` and `gültig bis` are truthy and the context supplies a date; any
parse failure is swallowed (`except: pass`, i.e. treated as a match). -/
def sdDateOk (serviceDate : Option String) (von bis : Option String) : Bool :=
  if truthy von && truthy bis then
    if truthy serviceDate then
      match pyToInt (serviceDate.getD ""), pyToInt (von.getD ""), pyToInt (bis.getD "") with
      | some d, some lo, some hi => decide (lo ≤ d ∧ d ≤ hi)
      | _, _, _ => true
    else true
  else true

/-- All conditions of one rule row of the full service determination. -/
def sdMatches (ctx : SDCtx) (r : SDRow) : Bool :=
  strCondOk ctx.serviceType r.leistung &&
  strCondOk ctx.loadingStatus r.ladezustand &&
  transportOk ctx.transportType r.verkehrsform &&
  dangerousOk ctx.dangerousGoods r.gefahrgut &&
  strCondOk ctx.customsProcedure r.zollverfahren &&
  strCondOk ctx.departureCountry r.landVersand &&
  strCondOk ctx.departureStation r.bahnhofVersand &&
  strCondOk ctx.destinationCountry r.landEmpfang &&
  strCondOk ctx.destinationStation r.bahnhofEmpfang &&
  sdDateOk ctx.serviceDate r.gueltigVon r.gueltigBis

structure SDService where
  code : Int
  name : String
  ruleMatched : String
deriving DecidableEq, Repr

/-- The service appended for one matching row (`int(rule_ngb_code)` may raise,
which aborts the whole evaluation — modelled as `Except.error`). -/
def sdRowService (ctx : SDCtx) (rowIdx : Nat) (r : SDRow) : Except Unit (Option SDService) :=
  if !(sdAnyCell r) then Except.ok none
  else if sdMatches ctx r && truthy r.ngbCode then
    match pyToInt (r.ngbCode.getD "") with
    | some n =>
      Except.ok (some
        { code := n
          name := if truthy r.ngbName then r.ngbName.getD "" else "Service " ++ r.ngbCode.getD ""
          ruleMatched := "Row " ++ toString rowIdx })
    | none => Except.error ()
  else Except.ok none

/-- Scan of the data rows (row indices start at 2 in the sheet). -/
def sdGo (ctx : SDCtx) : Nat → List SDRow → Except Unit (List SDService)
  | _, [] => Except.ok []
  | i, r :: rs =>
    match sdRowService ctx i r with
    | Except.error e => Except.error e
    | Except.ok none => sdGo ctx (i + 1) rs
    | Except.ok (some s) => (sdGo ctx (i + 1) rs).map (fun l => s :: l)

/-- `evaluate_service_determination_full`: every matching row contributes its
service, in sheet order, without deduplication; any exception makes the
function return `[]`. -/
def evaluate_service_determination_full (rows : List SDRow) (ctx : SDCtx) : List SDService :=
  match sdGo ctx 2 rows with
  | Except.ok l => l
  | Except.error _ => []

/-- Whether a row emits a service (row non-empty, all conditions match, and
the NGB code cell is truthy). -/
def sdRowEmits (ctx : SDCtx) (r : SDRow) : Bool :=
  sdAnyCell r && sdMatches ctx r && truthy r.ngbCode

/-!
## Specificity ranking (`xlsx_price_loader.py`)

Python's `matches.sort(key=lambda x: x['specificity'], reverse=True)` is a
stable sort; `sortByKeyDesc` is an insertion sort with the same observable
behaviour (descending by key, ties keep source order), and the winner is the
head of the sorted list.
-/

def insertByKeyDesc {α : Type} (key : α → Nat) (a : α) : List α → List α
  | [] => [a]
  | b :: bs => if key b ≤ key a then a :: b :: bs else b :: insertByKeyDesc key a bs

def sortByKeyDesc {α : Type} (key : α → Nat) : List α → List α
  | [] => []
  | a :: l => insertByKeyDesc key a (sortByKeyDesc key l)

/-!
## `XLSXPriceLoader.get_main_service_price_advanced` (lines 154–279)

One row of `6_Preistabelle_Hauptleistungen_Einzelpreise.xlsx` (19 columns);
the context collects the function's parameters (all strings; the country and
tariff-point parameters that the code never compares are omitted).
-/

structure MainRow where
  angebotsnummer : Option String    -- 0: Angebotsnummer
  kundengruppe : Option String      -- 1: Kundengruppe
  kundennummer : Option String      -- 2: Kundennummer
  landVersand : Option String       -- 3: Land Bahnstelle Versand
  bahnhofVersand : Option String    -- 4: Bahnstellennummer Versand
  tarifpunktVersand : Option String -- 5: Tarifpunkt Versand
  landEmpfang : Option String       -- 6: Land Bahnstelle Empfang
  bahnhofEmpfang : Option String    -- 7: Bahnstellennummer Empfang
  tarifpunktEmpfang : Option String -- 8: Tarifpunkt Empfang
  richtung : Option String          -- 9: Richtung
  ladezustand : Option String       -- 10: Ladezustand
  verkehrsform : Option String      -- 11: Verkehrsform
  preisraster : Option String       -- 12: Preisraster
  laenge : Option String            -- 13: Container Länge
  gewichtsklasse : Option String    -- 14: Gewichtsklasse
  gueltigVon : Option String        -- 15: gültig von
  gueltigBis : Option String        -- 16: gültig bis
  preis : Option String             -- 17: Preis
  preiseinheit : Option String      -- 18: Preiseinheit
deriving DecidableEq, Repr

structure MainCtx where
  customerCode : String
  customerGroup : String
  offerNumber : String
  departureStation : String
  tariffPointDep : String
  destinationStation : String
  tariffPointDest : String
  direction : String
  loadingStatus : String
  transportForm : String
  containerLength : String
  weightClass : String
  serviceDate : String
deriving DecidableEq, Repr

def mainAnyCell (r : MainRow) : Bool :=
  truthy r.angebotsnummer || truthy r.kundengruppe || truthy r.kundennummer ||
  truthy r.landVersand || truthy r.bahnhofVersand || truthy r.tarifpunktVersand ||
  truthy r.landEmpfang || truthy r.bahnhofEmpfang || truthy r.tarifpunktEmpfang ||
  truthy r.richtung || truthy r.ladezustand || truthy r.verkehrsform ||
  truthy r.preisraster || truthy r.laenge || truthy r.gewichtsklasse ||
  truthy r.gueltigVon || truthy r.gueltigBis || truthy r.preis || truthy r.preiseinheit

/-- Customer / station / tariff-point bonuses (computed before the required
checks in the Python code; the customer tier is an if/elif/elif chain). -/
def mainSpecPre (ctx : MainCtx) (r : MainRow) : Nat :=
  (if truthy r.kundennummer && (r.kundennummer.getD "" == ctx.customerCode) then 1000
   else if truthy r.kundengruppe && (r.kundengruppe.getD "" == ctx.customerGroup) then 100
   else if truthy r.angebotsnummer && (r.angebotsnummer.getD "" == ctx.offerNumber) then 50
   else 0) +
  (if truthy r.bahnhofVersand && (r.bahnhofVersand.getD "" == ctx.departureStation) then 10 else 0) +
  (if truthy r.bahnhofEmpfang && (r.bahnhofEmpfang.getD "" == ctx.destinationStation) then 10 else 0) +
  (if truthy r.tarifpunktVersand && (r.tarifpunktVersand.getD "" == ctx.tariffPointDep) then 5 else 0) +
  (if truthy r.tarifpunktEmpfang && (r.tarifpunktEmpfang.getD "" == ctx.tariffPointDest) then 5 else 0)

/-- Required columns: direction, weight class, container length.  A truthy
cell that differs from the context excludes the row (`continue`); an empty
cell is a wildcard. -/
def mainRequiredOk (ctx : MainCtx) (r : MainRow) : Bool :=
  !(truthy r.richtung && (r.richtung.getD "" != ctx.direction)) &&
  !(truthy r.gewichtsklasse && (r.gewichtsklasse.getD "" != ctx.weightClass)) &&
  !(truthy r.laenge && (r.laenge.getD "" != ctx.containerLength))

/-- Loading-status / transport-form bonuses (+2 each). -/
def mainSpecOpt (ctx : MainCtx) (r : MainRow) : Nat :=
  (if truthy r.ladezustand && (r.ladezustand.getD "" == ctx.loadingStatus) then 2 else 0) +
  (if truthy r.verkehrsform && (r.verkehrsform.getD "" == ctx.transportForm) then 2 else 0)

/-- Date-window check of the main price lookup (lines 243–252): one-sided
bounds default to `0` / `99991231`; any parse failure is swallowed. -/
def mainDateOk (serviceDate : String) (von bis : Option String) : Bool :=
  match pyToInt (removeDashes serviceDate),
        (if truthy von then pyToInt (von.getD "") else some 0),
        (if truthy bis then pyToInt (bis.getD "") else some 99991231) with
  | some d, some lo, some hi => decide (lo ≤ d ∧ d ≤ hi)
  | _, _, _ => true

structure MainCand where
  specificity : Nat
  price : Dec
  priceUnit : String
  offerNumber : Option String
  customerNumber : Option String
  customerGroup : Option String
  matchedCriteria : Nat
deriving DecidableEq, Repr

/-- Candidate contributed by one row: a row survives the required and date
filters and is appended only when `specificity > 0 and row[17]`; `float` of a
malformed price cell raises, aborting the whole lookup. -/
def mainRowCand (ctx : MainCtx) (r : MainRow) : Except Unit (Option MainCand) :=
  if !(mainAnyCell r) then Except.ok none
  else if !(mainRequiredOk ctx r) then Except.ok none
  else if !(mainDateOk ctx.serviceDate r.gueltigVon r.gueltigBis) then Except.ok none
  else
    let spec := mainSpecPre ctx r + mainSpecOpt ctx r
    if (decide (0 < spec)) && truthy r.preis then
      match parseFloat (r.preis.getD "") with
      | some p =>
        Except.ok (some
          { specificity := spec
            price := p
            priceUnit := if truthy r.preiseinheit then r.preiseinheit.getD "" else "Container"
            offerNumber := r.angebotsnummer
            customerNumber := r.kundennummer
            customerGroup := r.kundengruppe
            matchedCriteria := spec })
      | none => Except.error ()
    else Except.ok none

def collectMain (ctx : MainCtx) : List MainRow → Except Unit (List MainCand)
  | [] => Except.ok []
  | r :: rs =>
    match mainRowCand ctx r with
    | Except.error e => Except.error e
    | Except.ok none => collectMain ctx rs
    | Except.ok (some c) => (collectMain ctx rs).map (fun l => c :: l)

/-- `get_main_service_price_advanced`: sort the candidates by specificity,
highest first (stable), and return the head; `None` when no candidate or on an
exception. -/
def get_main_service_price_advanced (rows : List MainRow) (ctx : MainCtx) : Option MainCand :=
  match collectMain ctx rows with
  | Except.error _ => none
  | Except.ok ms => (sortByKeyDesc MainCand.specificity ms).head?

/-!
## `XLSXPriceLoader.get_additional_service_price_advanced` (lines 320–449)

One row of `6_Preistabelle_Nebenleistungen.xlsx` (columns 0–19; columns 11–14
are never compared but participate in `any(row)`).  Optional context
parameters default to `None`, `quantity` defaults to 1.
-/

structure AddRow where
  ngbCode : Option String           -- 0: NGB-Code
  ngbName : Option String           -- 1: NGB-Name (DE)
  kundennummer : Option String      -- 2: Kundennummer
  kundengruppe : Option String      -- 3: Kundengruppe
  angebotsnummer : Option String    -- 4: Angebotsnummer
  landVersand : Option String       -- 5: Land Bahnstelle Versand
  bahnhofVersand : Option String    -- 6: Bahnstellennummer Versand
  landEmpfang : Option String       -- 7: Land Bahnstelle Empfang
  bahnhofEmpfang : Option String    -- 8: Bahnstellennummer Empfang
  ladezustand : Option String       -- 9: Ladezustand
  verkehrsform : Option String      -- 10: Verkehrsform
  col11 : Option String             -- 11 (unused)
  col12 : Option String             -- 12 (unused)
  col13 : Option String             -- 13 (unused)
  col14 : Option String             -- 14 (unused)
  containerLaenge : Option String   -- 15: Container Länge
  gueltigVon : Option String        -- 16: gültig von
  gueltigBis : Option String        -- 17: gültig bis
  preisbasis : Option String        -- 18: Preisbasis
  preis : Option String             -- 19: Preis
deriving DecidableEq, Repr

structure AddCtx where
  serviceCode : String
  customerCode : Option String
  customerGroup : Option String
  departureStation : Option String
  destinationStation : Option String
  loadingStatus : Option String
  transportForm : Option String
  containerLength : Option String
  serviceDate : Option String
  quantity : Int
deriving DecidableEq, Repr

def addAnyCell (r : AddRow) : Bool :=
  truthy r.ngbCode || truthy r.ngbName || truthy r.kundennummer || truthy r.kundengruppe ||
  truthy r.angebotsnummer || truthy r.landVersand || truthy r.bahnhofVersand ||
  truthy r.landEmpfang || truthy r.bahnhofEmpfang || truthy r.ladezustand ||
  truthy r.verkehrsform || truthy r.col11 || truthy r.col12 || truthy r.col13 ||
  truthy r.col14 || truthy r.containerLaenge || truthy r.gueltigVon || truthy r.gueltigBis ||
  truthy r.preisbasis || truthy r.preis

/-- Required service-code match: `if not row[0] or str(row[0]) !=
str(service_code): continue`. -/
def addCodeOk (serviceCode : String) (r : AddRow) : Bool :=
  truthy r.ngbCode && (r.ngbCode.getD "" == serviceCode)

/-- Specificity of an additional-service row (customer tier is if/elif; each
bonus also requires the corresponding context parameter to be truthy). -/
def addSpec (ctx : AddCtx) (r : AddRow) : Nat :=
  (if truthy ctx.customerCode && truthy r.kundennummer &&
      (r.kundennummer.getD "" == ctx.customerCode.getD "") then 1000
   else if truthy ctx.customerGroup && truthy r.kundengruppe &&
      (r.kundengruppe.getD "" == ctx.customerGroup.getD "") then 100
   else 0) +
  (if truthy ctx.departureStation && truthy r.bahnhofVersand &&
      (r.bahnhofVersand.getD "" == ctx.departureStation.getD "") then 10 else 0) +
  (if truthy ctx.destinationStation && truthy r.bahnhofEmpfang &&
      (r.bahnhofEmpfang.getD "" == ctx.destinationStation.getD "") then 10 else 0) +
  (if truthy ctx.loadingStatus && truthy r.ladezustand &&
      (r.ladezustand.getD "" == ctx.loadingStatus.getD "") then 2 else 0) +
  (if truthy ctx.transportForm && truthy r.verkehrsform &&
      (r.verkehrsform.getD "" == ctx.transportForm.getD "") then 2 else 0) +
  (if truthy ctx.containerLength && truthy r.containerLaenge &&
      (r.containerLaenge.getD "" == ctx.containerLength.getD "") then 2 else 0)

/-- Date-window check of the additional price lookup (lines 404–414): it runs
only when the context date **and both bounds** are truthy; parse failures are
swallowed. -/
def addDateOk (serviceDate : Option String) (von bis : Option String) : Bool :=
  if truthy serviceDate && truthy von && truthy bis then
    match pyToInt (removeDashes (serviceDate.getD "")), pyToInt (von.getD ""),
          pyToInt (bis.getD "") with
    | some d, some lo, some hi => decide (lo ≤ d ∧ d ≤ hi)
    | _, _, _ => true
  else true

/-- The per-unit price bases recognized by the code. -/
def perUnitBases : List String := ["einheit", "unit", "per_unit"]

structure AddCand where
  specificity : Nat
  pricePerUnit : Dec
  quantity : Int
  totalPrice : Dec
  priceBasis : String
  serviceName : String
deriving DecidableEq, Repr

/-- Candidate contributed by one additional-service row.  The function itself
multiplies the unit price by the context quantity for per-unit rows
(`total_price = price_per_unit * quantity`). -/
def addRowCand (ctx : AddCtx) (r : AddRow) : Except Unit (Option AddCand) :=
  if !(addAnyCell r) then Except.ok none
  else if !(addCodeOk ctx.serviceCode r) then Except.ok none
  else if !(addDateOk ctx.serviceDate r.gueltigVon r.gueltigBis) then Except.ok none
  else if truthy r.preis then
    match parseFloat (r.preis.getD "") with
    | some p =>
      let basis := if truthy r.preisbasis then r.preisbasis.getD "" else "Container"
      let perUnit := perUnitBases.contains (pyLower basis)
      Except.ok (some
        { specificity := addSpec ctx r
          pricePerUnit := p
          quantity := if perUnit then ctx.quantity else 1
          totalPrice := if perUnit then p.mulInt ctx.quantity else p
          priceBasis := basis
          serviceName := if truthy r.ngbName then r.ngbName.getD ""
                         else "Service " ++ ctx.serviceCode })
    | none => Except.error ()
  else Except.ok none

def collectAdd (ctx : AddCtx) : List AddRow → Except Unit (List AddCand)
  | [] => Except.ok []
  | r :: rs =>
    match addRowCand ctx r with
    | Except.error e => Except.error e
    | Except.ok none => collectAdd ctx rs
    | Except.ok (some c) => (collectAdd ctx rs).map (fun l => c :: l)

/-- `get_additional_service_price_advanced`: stable sort by specificity,
highest first, return the head. -/
def get_additional_service_price_advanced (rows : List AddRow) (ctx : AddCtx) : Option AddCand :=
  match collectAdd ctx rows with
  | Except.error _ => none
  | Except.ok ms => (sortByKeyDesc AddCand.specificity ms).head?

/-!
## `XLSXDMNProcessor._parse_sheet` / `load_rule_file` (lines 26–178)

A worksheet is a 1-indexed grid of optional cell values; `maxRow`/`maxCol`
mirror openpyxl's `max_row`/`max_column`.
-/

structure Sheet where
  maxRow : Nat
  maxCol : Nat
  grid : List (List (Option String))
deriving DecidableEq, Repr

/-- `sheet.cell(r, c).value` (1-indexed). -/
def cellAt (s : Sheet) (r c : Nat) : Option String :=
  ((s.grid.getD (r - 1) []).getD (c - 1) none)

/-- Python `s.endswith(c)` for a single character. -/
def endsWithCh (c : Char) (cs : List Char) : Bool := cs.getLast? == some c

/-- The quote cleaning of DMN data cells: remove one layer of surrounding
double quotes when the value both starts and ends with one. -/
def dropEdgeQuotes (s : String) : String :=
  let cs := s.toList
  if startsWithCh [quoteChar] cs && endsWithCh quoteChar cs then
    String.mk ((cs.drop 1).dropLast)
  else s

/-- The hit-policy tokens recognized in cell A2. -/
def hitPolicyTokens : List String :=
  ["U", "A", "P", "F", "R", "O", "C", "C+", "C<", "C>", "C#"]

structure SheetData where
  name : String
  headers : List String
  rows : List (List String)
  maxRow : Nat
  maxCol : Nat
  isDmnTable : Bool
  tableName : Option String
  hitPolicy : Option String
deriving DecidableEq, Repr

/-- Header cell text: `str(v).strip()` when the cell is non-`None`, else the
placeholder `Col_<idx>`. -/
def headerText (cell : Option String) (col : Nat) : String :=
  match cell with
  | some v => pyStrip v
  | none => "Col_" ++ toString col

/-- `_parse_sheet`: a sheet whose A2 cell holds a recognized hit-policy token
is parsed as a DMN decision table (headers in row 2 from column 2, data from
row 3); **any other sheet is parsed as a regular sheet** (headers in row 1,
data from row 2) — there is no failure path. -/
def parse_sheet (sheet : Sheet) (sheetName : String) : SheetData :=
  if sheet.maxRow < 1 then
    { name := sheetName, headers := [], rows := [], maxRow := sheet.maxRow,
      maxCol := sheet.maxCol, isDmnTable := false, tableName := none, hitPolicy := none }
  else
    let a1 := cellAt sheet 1 1
    let a2 := cellAt sheet 2 1
    if truthy a2 && hitPolicyTokens.contains (pyStrip (a2.getD "")) then
      let headers := (List.range' 2 (sheet.maxCol - 1)).map
        (fun col => headerText (cellAt sheet 2 col) col)
      let dataRows := ((List.range' 3 (sheet.maxRow - 2)).map
        (fun row => (List.range' 2 (sheet.maxCol - 1)).map
          (fun col =>
            match cellAt sheet row col with
            | some v => dropEdgeQuotes (pyStrip v)
            | none => ""))).filter (fun rowData => rowData.any (fun cell => cell ≠ ""))
      { name := sheetName, headers := headers, rows := dataRows, maxRow := sheet.maxRow,
        maxCol := sheet.maxCol, isDmnTable := true,
        tableName := some (if truthy a1 then pyStrip (a1.getD "") else sheetName),
        hitPolicy := some (pyStrip (a2.getD "")) }
    else
      let headers := (List.range' 1 sheet.maxCol).map
        (fun col => headerText (cellAt sheet 1 col) col)
      let dataRows := ((List.range' 2 (sheet.maxRow - 1)).map
        (fun row => (List.range' 1 sheet.maxCol).map
          (fun col =>
            match cellAt sheet row col with
            | some v => pyStrip v
            | none => ""))).filter (fun rowData => rowData.any (fun cell => cell ≠ ""))
      { name := sheetName, headers := headers, rows := dataRows, maxRow := sheet.maxRow,
        maxCol := sheet.maxCol, isDmnTable := false, tableName := none, hitPolicy := none }

/-- `_extract_rules_from_sheet`, one row: cells are keyed by header (later
duplicate headers overwrite earlier ones, as in a Python dict) and quoted
values are stripped; conditions and outputs receive the same entries. -/
def extractRule (sheetName : String) (headers : List String) (i : Nat)
    (row : List String) : RuleT :=
  let d := headers.enum.foldl (fun d p =>
    match row.get? p.1 with
    | some v => if v ≠ "" then dset d p.2 (stripQuotes v) else d
    | none => d) []
  { sheet := sheetName, ruleId := sheetName ++ "_" ++ toString (i + 1),
    conditions := d, outputs := d, rawRow := row }

def extractRules (sd : SheetData) (sheetName : String) : List RuleT :=
  sd.rows.enum.map (fun p => extractRule sheetName sd.headers p.1 p.2)

structure RuleData where
  fileName : String
  sheets : List (String × SheetData)
  rules : List RuleT
deriving DecidableEq, Repr

/-- `_parse_workbook`: parse every sheet; sheets with non-empty headers and
rows contribute their rules in order. -/
def parse_workbook (wb : List (String × Sheet)) (fileName : String) : RuleData :=
  let sheetDatas := wb.map (fun p => (p.1, parse_sheet p.2 p.1))
  { fileName := fileName
    sheets := sheetDatas
    rules := (sheetDatas.map (fun p =>
      if p.2.headers ≠ [] ∧ p.2.rows ≠ [] then extractRules p.2 p.1 else [])).flatten }

/-!
## The rule cache (`load_rule_file`, lines 26–62)

The filesystem is modelled as a map from file name to `none` (missing file) or
`some (mtime, workbook?)`, where a `none` workbook stands for a file whose
load raises an exception.
-/

structure CacheState where
  ruleCache : List (String × RuleData)
  fileMtimes : List (String × ℚ)
deriving DecidableEq, Repr

/-- `load_rule_file`: return the cached data when the file was not modified
(`current_mtime <= cached_mtime`) and no reload is forced; otherwise reload
and atomically replace the cached table and mtime.  A missing file or a load
exception returns `None` and leaves the cache untouched. -/
def load_rule_file (fs : String → Option (ℚ × Option (List (String × Sheet))))
    (st : CacheState) (fileName : String) (forceReload : Bool) :
    Option RuleData × CacheState :=
  match fs fileName with
  | none => (none, st)
  | some (currentMtime, wbOpt) =>
    let cached := alookup st.ruleCache fileName
    if !forceReload && cached.isSome &&
        decide (currentMtime ≤ (alookup st.fileMtimes fileName).getD 0) then
      (cached, st)
    else
      match wbOpt with
      | none => (none, st)
      | some wb =>
        let ruleData := parse_workbook wb fileName
        (some ruleData,
         { ruleCache := dset st.ruleCache fileName ruleData
           fileMtimes := dset st.fileMtimes fileName currentMtime })

/-! ## General lemmas about the ranking sort and the collectors -/

theorem insertByKeyDesc_ne_nil {α : Type} (key : α → Nat) (a : α) (l : List α) :
    insertByKeyDesc key a l ≠ [] := by
  cases l with
  | nil => simp [insertByKeyDesc]
  | cons b bs =>
    simp only [insertByKeyDesc]
    split <;> simp

theorem sortByKeyDesc_eq_nil_iff {α : Type} (key : α → Nat) (l : List α) :
    sortByKeyDesc key l = [] ↔ l = [] := by
  cases l with
  | nil => simp [sortByKeyDesc]
  | cons a t => simp [sortByKeyDesc, insertByKeyDesc_ne_nil]

theorem head?_insertByKeyDesc {α : Type} (key : α → Nat) (a : α) (l : List α) :
    (insertByKeyDesc key a l).head? =
      some (match l.head? with
            | none => a
            | some b => if key b ≤ key a then a else b) := by
  cases l with
  | nil => rfl
  | cons b bs =>
    simp only [insertByKeyDesc, List.head?_cons]
    split <;> rfl

theorem find?_congr_mem {α : Type} {p q : α → Bool} :
    ∀ {l : List α}, (∀ x ∈ l, p x = q x) → l.find? p = l.find? q := by
  intro l
  induction l with
  | nil => intro _; rfl
  | cons a t ih =>
    intro h
    have ha : p a = q a := h a (List.mem_cons_self a t)
    cases hqa : q a with
    | true =>
      rw [List.find?_cons_of_pos _ (ha.trans hqa), List.find?_cons_of_pos _ hqa]
    | false =>
      rw [List.find?_cons_of_neg _ (by simp [ha, hqa]), List.find?_cons_of_neg _ (by simp [hqa])]
      exact ih (fun x hx => h x (List.mem_cons_of_mem a hx))

/-- The head of the stable descending sort is the first element whose key is
maximal: exactly "highest score wins, ties broken by source order". -/
theorem sortByKeyDesc_head?_eq_find? {α : Type} (key : α → Nat) (l : List α) :
    (sortByKeyDesc key l).head? = l.find? (fun a => l.all (fun b => key b ≤ key a)) := by
  induction l with
  | nil => rfl
  | cons a t ih =>
    show (insertByKeyDesc key a (sortByKeyDesc key t)).head? = _
    rw [head?_insertByKeyDesc]
    cases ht : (sortByKeyDesc key t).head? with
    | none =>
      have ht' : t = [] := by
        rcases hs : sortByKeyDesc key t with _ | ⟨x, xs⟩
        · exact (sortByKeyDesc_eq_nil_iff key t).mp hs
        · rw [hs] at ht; simp at ht
      subst ht'
      simp
    | some m =>
      have hfind : t.find? (fun x => t.all (fun b => key b ≤ key x)) = some m := by
        rw [← ih, ht]
      have hmax : ∀ b ∈ t, key b ≤ key m := by
        have := List.find?_some hfind
        simpa using this
      have hmem : m ∈ t := List.mem_of_find?_eq_some hfind
      by_cases hka : key m ≤ key a
      · have hpa : ((a :: t).all (fun b => key b ≤ key a)) = true := by
          simp only [List.all_cons, Bool.and_eq_true, decide_eq_true_eq]
          exact ⟨le_refl _, by
            rw [List.all_eq_true]
            intro b hb
            simpa using le_trans (hmax b hb) hka⟩
        rw [List.find?_cons_of_pos (p := fun x => (a :: t).all (fun b => key b ≤ key x)) _ hpa]
        simp [hka]
      · have hlt : key a < key m := lt_of_not_le hka
        have hpa : ((a :: t).all (fun b => key b ≤ key a)) = false := by
          simp only [List.all_cons, Bool.and_eq_true, decide_eq_true_eq]
          rw [Bool.eq_false_iff]
          intro hcontra
          rw [Bool.and_eq_true] at hcontra
          have := (List.all_eq_true.mp hcontra.2) m hmem
          simp only [decide_eq_true_eq] at this
          exact absurd this (not_le.mpr hlt)
        rw [List.find?_cons_of_neg (p := fun x => (a :: t).all (fun b => key b ≤ key x)) _
          (by simp [hpa])]
        have hcongr : t.find? (fun x => (a :: t).all (fun b => key b ≤ key x)) =
            t.find? (fun x => t.all (fun b => key b ≤ key x)) := by
          apply find?_congr_mem
          intro x hx
          simp only [List.all_cons]
          cases hq : t.all (fun b => key b ≤ key x) with
          | true =>
            have hax : key a ≤ key x := by
              have hmx := (List.all_eq_true.mp hq) m hmem
              simp only [decide_eq_true_eq] at hmx
              exact le_trans (le_of_lt hlt) hmx
            simp [hax]
          | false => simp
        rw [hcongr, hfind]
        simp [hka]

/-- The winner returned by the sort-and-take-head step is one of the inputs. -/
theorem head?_sortByKeyDesc_mem {α : Type} (key : α → Nat) (l : List α) (c : α)
    (h : (sortByKeyDesc key l).head? = some c) : c ∈ l := by
  rw [sortByKeyDesc_head?_eq_find?] at h
  exact List.mem_of_find?_eq_some h

theorem collectAdd_nil (ctx : AddCtx) : collectAdd ctx [] = Except.ok [] := rfl

theorem collectAdd_cons (ctx : AddCtx) (r : AddRow) (rs : List AddRow) :
    collectAdd ctx (r :: rs) =
      match addRowCand ctx r with
      | Except.error e => Except.error e
      | Except.ok none => collectAdd ctx rs
      | Except.ok (some c) => (collectAdd ctx rs).map (fun l => c :: l) := rfl

theorem collectMain_nil (ctx : MainCtx) : collectMain ctx [] = Except.ok [] := rfl

theorem collectMain_cons (ctx : MainCtx) (r : MainRow) (rs : List MainRow) :
    collectMain ctx (r :: rs) =
      match mainRowCand ctx r with
      | Except.error e => Except.error e
      | Except.ok none => collectMain ctx rs
      | Except.ok (some c) => (collectMain ctx rs).map (fun l => c :: l) := rfl

theorem collectAdd_mem (ctx : AddCtx) :
    ∀ (rows : List AddRow) (ms : List AddCand), collectAdd ctx rows = Except.ok ms →
      ∀ c ∈ ms, ∃ r ∈ rows, addRowCand ctx r = Except.ok (some c) := by
  intro rows
  induction rows with
  | nil =>
    intro ms h c hc
    rw [collectAdd_nil] at h
    cases h
    simp at hc
  | cons r rs ih =>
    intro ms h c hc
    rw [collectAdd_cons] at h
    cases hr : addRowCand ctx r with
    | error e => rw [hr] at h; simp at h
    | ok oc =>
      rw [hr] at h
      cases oc with
      | none =>
        obtain ⟨q, hq, hcq⟩ := ih ms h c hc
        exact ⟨q, List.mem_cons_of_mem _ hq, hcq⟩
      | some c0 =>
        cases hrec : collectAdd ctx rs with
        | error e => rw [hrec] at h; simp [Except.map] at h
        | ok ms0 =>
          rw [hrec] at h
          simp only [Except.map, Except.ok.injEq] at h
          subst h
          rcases List.mem_cons.mp hc with hceq | hcm
          · subst hceq; exact ⟨r, List.mem_cons_self r rs, hr⟩
          · obtain ⟨q, hq, hcq⟩ := ih ms0 hrec c hcm
            exact ⟨q, List.mem_cons_of_mem _ hq, hcq⟩

theorem mainRowCand_spec_pos (ctx : MainCtx) (r : MainRow) (c : MainCand)
    (h : mainRowCand ctx r = Except.ok (some c)) : 0 < c.specificity := by
  simp only [mainRowCand] at h
  repeat' split at h
  all_goals (try simp at h)
  all_goals
    (subst h
     show 0 < mainSpecPre ctx r + mainSpecOpt ctx r
     simp only [Bool.and_eq_true, decide_eq_true_eq] at *
     omega)

theorem collectMain_mem (ctx : MainCtx) :
    ∀ (rows : List MainRow) (ms : List MainCand), collectMain ctx rows = Except.ok ms →
      ∀ c ∈ ms, ∃ r ∈ rows, mainRowCand ctx r = Except.ok (some c) := by
  intro rows
  induction rows with
  | nil =>
    intro ms h c hc
    rw [collectMain_nil] at h
    cases h
    simp at hc
  | cons r rs ih =>
    intro ms h c hc
    rw [collectMain_cons] at h
    cases hr : mainRowCand ctx r with
    | error e => rw [hr] at h; simp at h
    | ok oc =>
      rw [hr] at h
      cases oc with
      | none =>
        obtain ⟨q, hq, hcq⟩ := ih ms h c hc
        exact ⟨q, List.mem_cons_of_mem _ hq, hcq⟩
      | some c0 =>
        cases hrec : collectMain ctx rs with
        | error e => rw [hrec] at h; simp [Except.map] at h
        | ok ms0 =>
          rw [hrec] at h
          simp only [Except.map, Except.ok.injEq] at h
          subst h
          rcases List.mem_cons.mp hc with hceq | hcm
          · subst hceq; exact ⟨r, List.mem_cons_self r rs, hr⟩
          · obtain ⟨q, hq, hcq⟩ := ih ms0 hrec c hcm
            exact ⟨q, List.mem_cons_of_mem _ hq, hcq⟩

theorem addRowCand_fields (ctx : AddCtx) (r : AddRow) (c : AddCand)
    (h : addRowCand ctx r = Except.ok (some c)) :
    parseFloat (r.preis.getD "") = some c.pricePerUnit ∧
    c.priceBasis = (if truthy r.preisbasis then r.preisbasis.getD "" else "Container") ∧
    (if perUnitBases.contains (pyLower c.priceBasis) = true then
        c.totalPrice = c.pricePerUnit.mulInt ctx.quantity ∧ c.quantity = ctx.quantity
     else c.totalPrice = c.pricePerUnit ∧ c.quantity = 1) := by
  simp only [addRowCand] at h
  repeat' split at h
  all_goals (try simp at h)
  all_goals
    (subst h
     refine ⟨by assumption, by simp_all, ?_⟩
     split <;> simp_all)

/-! ## Helper lemmas for the service-determination scan -/

/-- Spec-side trace of the rows that emit a service: one label per matching
row, in sheet order (duplicates included). -/
def rowLabels (ctx : SDCtx) : Nat → List SDRow → List String
  | _, [] => []
  | i, r :: rs =>
    (if sdRowEmits ctx r then ["Row " ++ toString i] else []) ++ rowLabels ctx (i + 1) rs

theorem sdGo_nil (ctx : SDCtx) (i : Nat) : sdGo ctx i [] = Except.ok [] := rfl

theorem sdGo_cons (ctx : SDCtx) (i : Nat) (r : SDRow) (rs : List SDRow) :
    sdGo ctx i (r :: rs) =
      match sdRowService ctx i r with
      | Except.error e => Except.error e
      | Except.ok none => sdGo ctx (i + 1) rs
      | Except.ok (some s) => (sdGo ctx (i + 1) rs).map (fun l => s :: l) := rfl

theorem sdRowService_ok_none (ctx : SDCtx) (i : Nat) (r : SDRow)
    (h : sdRowService ctx i r = Except.ok none) : sdRowEmits ctx r = false := by
  simp only [sdRowService] at h
  repeat' split at h
  all_goals (try simp at h)
  all_goals (unfold sdRowEmits; simp_all)

theorem sdRowService_ok_some (ctx : SDCtx) (i : Nat) (r : SDRow) (s : SDService)
    (h : sdRowService ctx i r = Except.ok (some s)) :
    sdRowEmits ctx r = true ∧ s.ruleMatched = "Row " ++ toString i := by
  simp only [sdRowService] at h
  repeat' split at h
  all_goals (try simp at h)
  all_goals (subst h; unfold sdRowEmits; simp_all)

theorem sdGo_ok_spec (ctx : SDCtx) :
    ∀ (rows : List SDRow) (i : Nat) (l : List SDService), sdGo ctx i rows = Except.ok l →
      l.length = (rows.filter (sdRowEmits ctx)).length ∧
      l.map SDService.ruleMatched = rowLabels ctx i rows := by
  intro rows
  induction rows with
  | nil =>
    intro i l h
    rw [sdGo_nil] at h
    cases h
    simp [rowLabels]
  | cons r rs ih =>
    intro i l h
    rw [sdGo_cons] at h
    cases hr : sdRowService ctx i r with
    | error e => rw [hr] at h; simp at h
    | ok oc =>
      rw [hr] at h
      cases oc with
      | none =>
        have hem := sdRowService_ok_none ctx i r hr
        obtain ⟨h1, h2⟩ := ih (i + 1) l h
        refine ⟨?_, ?_⟩
        · rw [h1, List.filter_cons, hem]
          simp
        · rw [h2]
          show _ = (if sdRowEmits ctx r then _ else []) ++ _
          rw [hem]
          simp
      | some s =>
        cases hrec : sdGo ctx (i + 1) rs with
        | error e => rw [hrec] at h; simp [Except.map] at h
        | ok l0 =>
          rw [hrec] at h
          simp only [Except.map, Except.ok.injEq] at h
          subst h
          obtain ⟨hem, hrm⟩ := sdRowService_ok_some ctx i r s hr
          obtain ⟨h1, h2⟩ := ih (i + 1) l0 hrec
          refine ⟨?_, ?_⟩
          · rw [List.filter_cons, hem]
            simp [h1]
          · show s.ruleMatched :: _ = (if sdRowEmits ctx r then _ else []) ++ _
            rw [hem, hrm, h2]
            simp

/-! ## Helper lemmas for the validity-window checks -/

theorem sdDateOk_of_not_both (sd von bis : Option String)
    (h : ¬(truthy von = true ∧ truthy bis = true)) : sdDateOk sd von bis = true := by
  unfold sdDateOk
  cases hv : truthy von <;> cases hb : truthy bis <;> simp_all

theorem addDateOk_of_not_all (sd von bis : Option String)
    (h : ¬(truthy sd = true ∧ truthy von = true ∧ truthy bis = true)) :
    addDateOk sd von bis = true := by
  unfold addDateOk
  cases hs : truthy sd <;> cases hv : truthy von <;> cases hb : truthy bis <;> simp_all

theorem sdDateOk_none (von bis : Option String) : sdDateOk none von bis = true := by
  unfold sdDateOk
  cases truthy von <;> cases truthy bis <;> simp [truthy]

theorem sdMatches_date_irrelevant (ctx : SDCtx) (r : SDRow) (d : Option String)
    (h : ¬(truthy r.gueltigVon = true ∧ truthy r.gueltigBis = true)) :
    sdMatches { ctx with serviceDate := d } r = sdMatches ctx r := by
  unfold sdMatches
  rw [sdDateOk_of_not_both _ _ _ h, sdDateOk_of_not_both _ _ _ h]

theorem sdDateOk_both (sd von bis : Option String) (dInt lo hi : Int)
    (hs : truthy sd = true) (hv : truthy von = true) (hb : truthy bis = true)
    (hd : pyToInt (sd.getD "") = some dInt) (hlo : pyToInt (von.getD "") = some lo)
    (hhi : pyToInt (bis.getD "") = some hi) :
    (sdDateOk sd von bis = true ↔ lo ≤ dInt ∧ dInt ≤ hi) := by
  unfold sdDateOk
  rw [hv, hb, hs, hd, hlo, hhi]
  simp

/-! ## Helper lemmas for the transport-type condition -/

theorem transportOk_kv (orderTransport : String) (cell : Option String)
    (h : stripQuotes (cell.getD "") = "KV") : transportOk orderTransport cell = true := by
  unfold transportOk
  split
  · rw [h]
    simp
  · rfl

theorem transportOk_ne_kv (orderTransport : String) (cell : Option String)
    (hg : (truthy cell && (stripQuotes (pyStrip (cell.getD "")) != "")) = true)
    (h : stripQuotes (cell.getD "") ≠ "KV") :
    transportOk orderTransport cell = (stripQuotes (cell.getD "") == orderTransport) := by
  unfold transportOk
  rw [if_pos hg]
  by_cases hc : stripQuotes (cell.getD "") = orderTransport
  · rw [hc]
    simp
  · have hc2 : ¬ orderTransport = stripQuotes (cell.getD "") := fun hx => hc hx.symm
    simp [hc, hc2, h, bne, beq_iff_eq]

theorem sdMatches_transport_irrelevant (ctx : SDCtx) (r : SDRow) (t1 t2 : String)
    (h : stripQuotes (r.verkehrsform.getD "") = "KV") :
    sdMatches { ctx with transportType := t1 } r = sdMatches { ctx with transportType := t2 } r := by
  unfold sdMatches
  rw [show ({ ctx with transportType := t1 } : SDCtx).transportType = t1 from rfl,
      show ({ ctx with transportType := t2 } : SDCtx).transportType = t2 from rfl,
      transportOk_kv t1 _ h, transportOk_kv t2 _ h]

/-! ## Helper lemmas for loader and cache -/

theorem alookup_dset {β : Type} (d : List (String × β)) (k : String) (v : β) :
    alookup (dset d k v) k = some v := by
  simp [alookup, dset]

theorem parse_sheet_not_dmn (sheet : Sheet) (nm : String)
    (h : (truthy (cellAt sheet 2 1) &&
      hitPolicyTokens.contains (pyStrip ((cellAt sheet 2 1).getD ""))) = false) :
    (parse_sheet sheet nm).isDmnTable = false := by
  unfold parse_sheet
  split
  · rfl
  · have hc : ¬((truthy (cellAt sheet 2 1) &&
        hitPolicyTokens.contains (pyStrip ((cellAt sheet 2 1).getD ""))) = true) := by
      rw [h]
      simp
    rw [if_neg hc]

theorem load_rule_file_error_keeps_state
    (fs : String → Option (ℚ × Option (List (String × Sheet)))) (st : CacheState)
    (nm : String) (m : ℚ) (hfs : fs nm = some (m, none)) :
    (load_rule_file fs st nm false).2 = st := by
  simp only [load_rule_file, hfs]
  split
  · rfl
  · rfl

theorem startsWithCh_pair_false (a b : Char) (cs : List Char)
    (h : startsWithCh [a] cs = false) : startsWithCh [a, b] cs = false := by
  cases cs with
  | nil => rfl
  | cons x xs =>
    simp only [startsWithCh, Bool.and_true] at h
    simp [startsWithCh, h]

theorem findSome?_first {α β : Type} (f : α → Option β) (pre post : List α) (r : α) (c : β)
    (hpre : ∀ q ∈ pre, f q = none) (hr : f r = some c) :
    (pre ++ r :: post).findSome? f = some c := by
  rw [List.findSome?_append, List.findSome?_eq_none_iff.mpr hpre]
  simp [List.findSome?_cons, hr]

/-!
## Claim theorems
-/

/-- C1: under the Unique hit policy the scan is strictly first-match-wins in
source order — the first rule producing a result wins regardless of whether a
later rule is more specific — and with no matching rule `evaluate_weight_class`
returns `none`; the corrected part: `evaluate_trip_type` does not return `None`
on no match but falls back to the default `"Zustellung"`. -/
theorem C1_unique_first_match :
    (∀ (pre post : List RuleT) (r : RuleT) (len pr c : String) (w : Dec),
      (∀ q ∈ pre, wcRuleResult len w.div1000 pr q = none) →
      wcRuleResult len w.div1000 pr r = some c →
      evaluate_weight_class (pre ++ r :: post) len w pr = some c) ∧
    (∀ (rules : List RuleT) (len pr : String) (w : Dec),
      (∀ q ∈ rules, wcRuleResult len w.div1000 pr q = none) →
      evaluate_weight_class rules len w pr = none) ∧
    (∀ (pre post : List RuleT) (r : RuleT) (code c : String),
      (∀ q ∈ pre, ttRuleResult code q = none) →
      ttRuleResult code r = some c →
      evaluate_trip_type (pre ++ r :: post) code = some c) ∧
    (∀ (rules : List RuleT) (code : String),
      (∀ q ∈ rules, ttRuleResult code q = none) →
      evaluate_trip_type rules code = some "Zustellung") := by
  refine ⟨?_, ?_, ?_, ?_⟩
  · intro pre post r len pr c w hpre hr
    unfold evaluate_weight_class
    rw [findSome?_first _ pre post r c hpre hr]
  · intro rules len pr w hall
    unfold evaluate_weight_class
    rw [List.findSome?_eq_none_iff.mpr hall]
  · intro pre post r code c hpre hr
    unfold evaluate_trip_type
    rw [findSome?_first _ pre post r c hpre hr]
  · intro rules code hall
    unfold evaluate_trip_type
    rw [List.findSome?_eq_none_iff.mpr hall]

def c1RuleA : RuleT :=
  ⟨"WC", "WC_1", [("Länge", "20"), ("Gewicht", "<=20")], [("WeightClass", "20A")], []⟩

def c1RuleB : RuleT :=
  ⟨"WC", "WC_2", [("Länge", "20"), ("Gewicht", ">20")], [("WeightClass", "20B")], []⟩

def c1TripRule : RuleT :=
  ⟨"TT", "TT_1", [("Trucking Code", "310")], [("TypeOfTrip", "Abholung")], []⟩

/-- C1 counterexample: with a non-matching rule list, `evaluate_trip_type`
returns the default `"Zustellung"`, not `None` as the claim states. -/
theorem C1_counterexample :
    evaluate_trip_type [c1TripRule] "999" = some "Zustellung" ∧
    some "Zustellung" ≠ (none : Option String) := by
  refine ⟨by decide, by simp⟩

/-- C1 witness: the spec's own weight-class scenario (23 t picks the `>20`
row) and a first-match trip-type lookup, via the claim theorem. -/
theorem C1_witness :
    evaluate_weight_class ([c1RuleA] ++ c1RuleB :: []) "20" ⟨23000, 0⟩ "N" = some "20B" ∧
    evaluate_trip_type ([] ++ c1TripRule :: []) "310" = some "Abholung" := by
  refine ⟨?_, ?_⟩
  · exact C1_unique_first_match.1 [c1RuleA] [] c1RuleB "20" "N" "20B" ⟨23000, 0⟩
      (by decide) (by decide)
  · exact C1_unique_first_match.2.2.1 [] [] c1TripRule "310" "Abholung"
      (by decide) (by decide)

theorem Dec.toRat_int (n : Int) : (Dec.mk n 0).toRat = (n : ℚ) := by
  simp [Dec.toRat]

/-- C4: range cells with `..` get their inclusivity per side from the bracket
characters — corrected: the recognized bracket characters are `[`/`]` in the
DMN style (`[10..20]`, `[10..20[`, `]10..20]`, `]10..20[`); parenthesis-
delimited ranges like `(10..20)` fail the numeric parse and never match. -/
theorem C4_range_inclusivity (w : Dec) :
    (evalWeightCondition w "[10..20]" = true ↔ 10 ≤ w.toRat ∧ w.toRat ≤ 20) ∧
    (evalWeightCondition w "[10..20[" = true ↔ 10 ≤ w.toRat ∧ w.toRat < 20) ∧
    (evalWeightCondition w "]10..20]" = true ↔ 10 < w.toRat ∧ w.toRat ≤ 20) ∧
    (evalWeightCondition w "]10..20[" = true ↔ 10 < w.toRat ∧ w.toRat < 20) ∧
    (∀ v : Dec, evalWeightCondition v "(10..20)" = false) := by
  refine ⟨?_, ?_, ?_, ?_, fun v => rfl⟩
  · rw [show evalWeightCondition w "[10..20]" = (Dec.ble ⟨10, 0⟩ w && Dec.ble w ⟨20, 0⟩) from rfl,
      Bool.and_eq_true, Dec.ble_iff, Dec.ble_iff, Dec.toRat_int, Dec.toRat_int]
    norm_num
  · rw [show evalWeightCondition w "[10..20[" = (Dec.ble ⟨10, 0⟩ w && Dec.blt w ⟨20, 0⟩) from rfl,
      Bool.and_eq_true, Dec.ble_iff, Dec.blt_iff, Dec.toRat_int, Dec.toRat_int]
    norm_num
  · rw [show evalWeightCondition w "]10..20]" = (Dec.blt ⟨10, 0⟩ w && Dec.ble w ⟨20, 0⟩) from rfl,
      Bool.and_eq_true, Dec.blt_iff, Dec.ble_iff, Dec.toRat_int, Dec.toRat_int]
    norm_num
  · rw [show evalWeightCondition w "]10..20[" = (Dec.blt ⟨10, 0⟩ w && Dec.blt w ⟨20, 0⟩) from rfl,
      Bool.and_eq_true, Dec.blt_iff, Dec.blt_iff, Dec.toRat_int, Dec.toRat_int]
    norm_num

/-- C4 counterexample: `(10..20)` with the fact 15 — the claim predicts a
match of the open interval, the code rejects the cell (the parenthesis is not
stripped, so `float("(10")` raises and the condition yields `False`). -/
theorem C4_counterexample :
    evalWeightCondition ⟨15, 0⟩ "(10..20)" = false ∧
    (10 : ℚ) < (Dec.mk 15 0).toRat ∧ (Dec.mk 15 0).toRat < 20 := by
  refine ⟨by decide, by norm_num [Dec.toRat], by norm_num [Dec.toRat]⟩

/-- C4 witness: the claim theorem applied at the fact 15. -/
theorem C4_witness :
    (evalWeightCondition ⟨15, 0⟩ "[10..20]" = true ↔
      10 ≤ (Dec.mk 15 0).toRat ∧ (Dec.mk 15 0).toRat ≤ 20) ∧
    evalWeightCondition ⟨15, 0⟩ "[10..20]" = true :=
  ⟨(C4_range_inclusivity ⟨15, 0⟩).1, by decide⟩

/-- C5: corrected — a cell string fitting none of the recognized forms does
not degrade to a permissive `Equals`/`Wildcard` match in the weight-condition
path: it is evaluated to `False` (an unconditional non-match), though indeed
never an exception; a range with a non-numeric bound likewise yields `False`. -/
theorem C5_unparseable_nonmatch :
    (∀ (w : Dec) (s : String),
      s ≠ "-" → s ≠ "" →
      hasDotDot (pyStripCh s.toList) = false →
      startsWithCh ['<'] (pyStripCh s.toList) = false →
      startsWithCh ['>'] (pyStripCh s.toList) = false →
      startsWithCh ['='] (pyStripCh s.toList) = false →
      parseFloatCh (pyStripCh s.toList) = none →
      evalWeightCondition w s = false) ∧
    (∀ w : Dec, evalWeightCondition w "[abc..20]" = false ∧
      evalWeightCondition w "<=abc" = false) := by
  constructor
  · intro w s h1 h2 hdd hlt hgt heq hpf
    simp only [String.toList] at hdd hlt hgt heq hpf
    simp only [evalWeightCondition]
    rw [if_neg (by simp [h1, h2])]
    rw [if_neg (by simp [hdd])]
    rw [if_neg (by simp [startsWithCh_pair_false _ _ _ hlt])]
    rw [if_neg (by simp [startsWithCh_pair_false _ _ _ hgt])]
    rw [if_neg (by simp [hlt])]
    rw [if_neg (by simp [hgt])]
    rw [if_neg (by simp [heq])]
    simp only [String.toList]
    rw [hpf]
  · intro w
    exact ⟨rfl, rfl⟩

/-- C5 counterexample: the unparseable cells `[abc..20]` (range with a
non-numeric bound) and `xyz` are unconditional non-matches, where the claim
says they behave as `Wildcard` / `Equals` and so could still match. -/
theorem C5_counterexample :
    evalWeightCondition ⟨15, 0⟩ "[abc..20]" = false ∧
    evalWeightCondition ⟨15, 0⟩ "xyz" = false := ⟨by decide, by decide⟩

/-- C5 witness: the claim theorem applied at the cell `"garbage"`. -/
theorem C5_witness : evalWeightCondition ⟨15, 0⟩ "garbage" = false :=
  C5_unparseable_nonmatch.1 ⟨15, 0⟩ "garbage" (by decide) (by decide) (by decide)
    (by decide) (by decide) (by decide) (by decide)

/-- C10: confirmed — a transport-type cell that quote-strips to `"KV"`
matches every context transport type (the condition can never fail), and a
non-`"KV"` cell filters by exact equality against the context value. -/
theorem C10_kv_matches_all :
    (∀ (orderTransport : String) (cell : Option String),
      stripQuotes (cell.getD "") = "KV" → transportOk orderTransport cell = true) ∧
    (∀ (orderTransport : String) (cell : Option String),
      (truthy cell && (stripQuotes (pyStrip (cell.getD "")) != "")) = true →
      stripQuotes (cell.getD "") ≠ "KV" →
      transportOk orderTransport cell = (stripQuotes (cell.getD "") == orderTransport)) ∧
    (∀ (ctx : SDCtx) (r : SDRow) (t1 t2 : String),
      stripQuotes (r.verkehrsform.getD "") = "KV" →
      sdMatches { ctx with transportType := t1 } r =
        sdMatches { ctx with transportType := t2 } r) :=
  ⟨transportOk_kv, transportOk_ne_kv, sdMatches_transport_irrelevant⟩

/-- C10 witness: a `"KV"` rule cell accepts the unrelated transport type
`"Strasse"`, and a `"Bahn"` cell filters by equality. -/
theorem C10_witness :
    transportOk "Strasse" (some "KV") = true ∧
    transportOk "Strasse" (some "Bahn") = (("Bahn" : String) == "Strasse") :=
  ⟨C10_kv_matches_all.1 "Strasse" (some "KV") (by decide),
   C10_kv_matches_all.2.1 "Strasse" (some "Bahn") (by decide) (by decide)⟩

theorem load_rule_file_cached (fs : String → Option (ℚ × Option (List (String × Sheet))))
    (st : CacheState) (nm : String) (m : ℚ) (wbOpt : Option (List (String × Sheet)))
    (rd : RuleData) (hfs : fs nm = some (m, wbOpt))
    (hcache : alookup st.ruleCache nm = some rd)
    (hm : m ≤ (alookup st.fileMtimes nm).getD 0) :
    load_rule_file fs st nm false = (some rd, st) := by
  simp only [load_rule_file, hfs]
  rw [if_pos (by simp [hcache, hm]), hcache]

theorem load_rule_file_reload (fs : String → Option (ℚ × Option (List (String × Sheet))))
    (st : CacheState) (nm : String) (m : ℚ) (wb : List (String × Sheet))
    (hfs : fs nm = some (m, some wb)) (hm : (alookup st.fileMtimes nm).getD 0 < m) :
    load_rule_file fs st nm false =
      (some (parse_workbook wb nm),
       ⟨dset st.ruleCache nm (parse_workbook wb nm), dset st.fileMtimes nm m⟩) := by
  simp only [load_rule_file, hfs]
  rw [if_neg (by simp [not_le.mpr hm])]

theorem load_rule_file_stable (fs : String → Option (ℚ × Option (List (String × Sheet))))
    (st : CacheState) (nm : String) (m : ℚ) (wb : List (String × Sheet))
    (hfs : fs nm = some (m, some wb)) :
    load_rule_file fs (load_rule_file fs st nm false).2 nm false =
      load_rule_file fs st nm false := by
  by_cases hc : ((alookup st.ruleCache nm).isSome &&
      decide (m ≤ (alookup st.fileMtimes nm).getD 0)) = true
  · have h1 : load_rule_file fs st nm false = (alookup st.ruleCache nm, st) := by
      simp only [load_rule_file, hfs]
      rw [if_pos (by simp [hc])]
    rw [h1]
    simp only [load_rule_file, hfs]
    rw [if_pos (by simp [hc])]
  · have h1 : load_rule_file fs st nm false =
        (some (parse_workbook wb nm),
         ⟨dset st.ruleCache nm (parse_workbook wb nm), dset st.fileMtimes nm m⟩) := by
      simp only [load_rule_file, hfs]
      rw [if_neg (by simp_all)]
    rw [h1]
    simp only [load_rule_file, hfs]
    rw [if_pos (by simp [alookup_dset])]
    rw [show alookup (dset st.ruleCache nm (parse_workbook wb nm)) nm =
        some (parse_workbook wb nm) from alookup_dset _ _ _]

/-- C2: corrected — for the additional-service lookup the ranker returns the
candidate whose specificity is maximal among the matching rows, ties broken by
the earliest source row (including a score-0 candidate); the main-service
lookup ranks the same way, but a matching row whose score is 0 is **excluded**
from the candidate set (`if specificity > 0`), so a lookup whose only matching
row matches no optional column returns `None` rather than that row. -/
theorem C2_specificity_ranking :
    (∀ (rows : List AddRow) (ctx : AddCtx) (ms : List AddCand),
      collectAdd ctx rows = Except.ok ms →
      get_additional_service_price_advanced rows ctx =
        ms.find? (fun c => ms.all (fun b => b.specificity ≤ c.specificity))) ∧
    (∀ (rows : List MainRow) (ctx : MainCtx) (ms : List MainCand),
      collectMain ctx rows = Except.ok ms →
      get_main_service_price_advanced rows ctx =
        ms.find? (fun c => ms.all (fun b => b.specificity ≤ c.specificity)) ∧
      ∀ c ∈ ms, 0 < c.specificity) := by
  constructor
  · intro rows ctx ms h
    unfold get_additional_service_price_advanced
    rw [h]
    exact sortByKeyDesc_head?_eq_find? AddCand.specificity ms
  · intro rows ctx ms h
    refine ⟨?_, ?_⟩
    · unfold get_main_service_price_advanced
      rw [h]
      exact sortByKeyDesc_head?_eq_find? MainCand.specificity ms
    · intro c hc
      obtain ⟨r, _, hcr⟩ := collectMain_mem ctx rows ms h c hc
      exact mainRowCand_spec_pos ctx r c hcr

def c2MainRow : MainRow :=
  ⟨none, none, none, none, none, none, none, none, none,
   some "Export", none, none, none, some "20", some "20B", none, none, some "100", none⟩

def c2MainCtx : MainCtx :=
  ⟨"234567", "G1", "O1", "80001", "TP1", "80002", "TP2", "Export", "beladen", "KV",
   "20", "20B", "2025-01-01"⟩

/-- C2 counterexample: a single row matching all required columns (direction,
weight class, container length) and the date window, with a price, but no
optional-column match (score 0), yields `None` from the main-service lookup —
the claim says the ranker returns `Some` candidate with maximal score
including the score-0 case. -/
theorem C2_counterexample :
    get_main_service_price_advanced [c2MainRow] c2MainCtx = none ∧
    mainRequiredOk c2MainCtx c2MainRow = true ∧
    mainDateOk c2MainCtx.serviceDate c2MainRow.gueltigVon c2MainRow.gueltigBis = true ∧
    truthy c2MainRow.preis = true ∧
    mainSpecPre c2MainCtx c2MainRow + mainSpecOpt c2MainCtx c2MainRow = 0 := by decide

def c2RowGen : AddRow :=
  ⟨some "123", some "S2", none, none, none, none, none, none, none, none, none,
   none, none, none, none, none, none, none, none, some "100"⟩

def c2RowCust : AddRow :=
  ⟨some "123", some "S1", some "234567", none, none, none, none, none, none, none, none,
   none, none, none, none, none, none, none, none, some "150"⟩

def c2ACtx : AddCtx := ⟨"123", some "234567", none, none, none, none, none, none, none, 1⟩

def c2Ms : List AddCand :=
  [⟨0, ⟨100, 0⟩, 1, ⟨100, 0⟩, "Container", "S2"⟩,
   ⟨1000, ⟨150, 0⟩, 1, ⟨150, 0⟩, "Container", "S1"⟩]

/-- C2 witness: the claim theorem applied to the spec's ranking scenario — the
customer-specific row (price 150) beats the generic row (price 100). -/
theorem C2_witness :
    get_additional_service_price_advanced [c2RowGen, c2RowCust] c2ACtx =
      c2Ms.find? (fun c => c2Ms.all (fun b => b.specificity ≤ c.specificity)) ∧
    (get_additional_service_price_advanced [c2RowGen, c2RowCust] c2ACtx).map
      AddCand.pricePerUnit = some ⟨150, 0⟩ :=
  ⟨C2_specificity_ranking.1 [c2RowGen, c2RowCust] c2ACtx c2Ms rfl, by decide⟩

/-- C3: corrected — the full COLLECT evaluation returns exactly one output row
per matching rule, in sheet order, duplicates included (no deduplication);
the legacy `evaluate_service_determination`, however, deduplicates the
collected service codes. -/
theorem C3_collect_no_dedup :
    ∀ (rows : List SDRow) (ctx : SDCtx) (l : List SDService),
      sdGo ctx 2 rows = Except.ok l →
      evaluate_service_determination_full rows ctx = l ∧
      l.length = (rows.filter (sdRowEmits ctx)).length ∧
      l.map SDService.ruleMatched = rowLabels ctx 2 rows := by
  intro rows ctx l h
  refine ⟨?_, (sdGo_ok_spec ctx rows 2 l h).1, (sdGo_ok_spec ctx rows 2 l h).2⟩
  unfold evaluate_service_determination_full
  rw [h]

def c3LegacyRule : RuleT :=
  ⟨"SD", "SD_1", [("Verkehrsform", "KV")], [("ServiceCode", "111")], []⟩

/-- C3 counterexample: two independently matching rules with the same service
code — the claim predicts two output rows, the legacy method returns one
(deduplicated). -/
theorem C3_counterexample :
    evaluate_service_determination [c3LegacyRule, c3LegacyRule] "KV" true = [111] ∧
    (evaluate_service_determination [c3LegacyRule, c3LegacyRule] "KV" true).length ≠ 2 :=
  ⟨by decide, by decide⟩

def c3Row : SDRow :=
  ⟨none, none, none, none, none, none, none, none, none, none, none, some "111", some "X"⟩

def c3Ctx : SDCtx := ⟨"", "", "KV", false, "", "", "", "", "", none⟩

def c3L : List SDService := [⟨111, "X", "Row 2"⟩, ⟨111, "X", "Row 3"⟩]

/-- C3 witness: the claim theorem applied to two identical matching rows — the
full evaluation keeps both (duplicates included), in sheet order. -/
theorem C3_witness :
    evaluate_service_determination_full [c3Row, c3Row] c3Ctx = c3L ∧
    c3L.length = ([c3Row, c3Row].filter (sdRowEmits c3Ctx)).length ∧
    c3L.map SDService.ruleMatched = rowLabels c3Ctx 2 [c3Row, c3Row] :=
  C3_collect_no_dedup [c3Row, c3Row] c3Ctx c3L rfl

/-- C6: corrected — in the cited evaluators a validity window is enforced only
when **both** bounds are present: with exactly one bound set the check is
skipped entirely (so the present side is *not* enforced, contrary to the
claim); a missing context date also skips the check; with both bounds present
and parseable the inclusive interval is enforced. -/
theorem C6_one_sided_window :
    (∀ (sd von bis : Option String), ¬(truthy von = true ∧ truthy bis = true) →
      sdDateOk sd von bis = true) ∧
    (∀ (ctx : SDCtx) (r : SDRow) (d : Option String),
      ¬(truthy r.gueltigVon = true ∧ truthy r.gueltigBis = true) →
      sdMatches { ctx with serviceDate := d } r = sdMatches ctx r) ∧
    (∀ (von bis : Option String), sdDateOk none von bis = true) ∧
    (∀ (sd von bis : Option String) (dInt lo hi : Int),
      truthy sd = true → truthy von = true → truthy bis = true →
      pyToInt (sd.getD "") = some dInt → pyToInt (von.getD "") = some lo →
      pyToInt (bis.getD "") = some hi →
      (sdDateOk sd von bis = true ↔ lo ≤ dInt ∧ dInt ≤ hi)) ∧
    (∀ (sd von bis : Option String),
      ¬(truthy sd = true ∧ truthy von = true ∧ truthy bis = true) →
      addDateOk sd von bis = true) :=
  ⟨sdDateOk_of_not_both, sdMatches_date_irrelevant, sdDateOk_none, sdDateOk_both,
   addDateOk_of_not_all⟩

def c6Row : SDRow :=
  ⟨none, none, none, none, none, none, none, none, none, some "20250101", none,
   some "111", some "X"⟩

def c6Ctx : SDCtx := ⟨"", "", "", false, "", "", "", "", "", some "20200101"⟩

/-- C6 counterexample: a rule with `valid_from = 20250101` and no `valid_to`
still matches a context dated 20200101 (before the window opens) — the claim
says the present side must still be enforced. -/
theorem C6_counterexample :
    evaluate_service_determination_full [c6Row] c6Ctx = [⟨111, "X", "Row 2"⟩] ∧
    c6Row.gueltigVon = some "20250101" ∧ c6Row.gueltigBis = none ∧
    c6Ctx.serviceDate = some "20200101" ∧ (20200101 : Int) < 20250101 := by decide

/-- C6 witness: the claim theorem applied to a one-sided window (skipped) and
to a two-sided window (inclusive interval enforced). -/
theorem C6_witness :
    sdDateOk (some "20200101") (some "20250101") none = true ∧
    (sdDateOk (some "20240601") (some "20240101") (some "20241231") = true ↔
      (20240101 : Int) ≤ 20240601 ∧ (20240601 : Int) ≤ 20241231) :=
  ⟨C6_one_sided_window.1 (some "20200101") (some "20250101") none (by decide),
   C6_one_sided_window.2.2.2.1 (some "20240601") (some "20240101") (some "20241231")
     20240601 20240101 20241231 (by decide) (by decide) (by decide)
     (by decide) (by decide) (by decide)⟩

/-- C7: corrected — loading never fails with a `MalformedTable` error: a grid
whose marker cell A2 is missing or holds an unrecognized token is silently
parsed as a regular (non-DMN) sheet with row 1 as headers, and `load_rule_file`
returns `None` only for a missing file or a workbook read error, in which case
the cache state (so any previously cached version) is left untouched. -/
theorem C7_no_malformed_error :
    (∀ (sheet : Sheet) (nm : String),
      (truthy (cellAt sheet 2 1) &&
        hitPolicyTokens.contains (pyStrip ((cellAt sheet 2 1).getD ""))) = false →
      (parse_sheet sheet nm).isDmnTable = false) ∧
    (∀ (fs : String → Option (ℚ × Option (List (String × Sheet)))) (st : CacheState)
       (nm : String) (m : ℚ), fs nm = some (m, none) →
      (load_rule_file fs st nm false).2 = st) :=
  ⟨parse_sheet_not_dmn, load_rule_file_error_keeps_state⟩

def c7Sheet : Sheet :=
  ⟨3, 2, [[some "T", some "H"], [some "X", some "v1"], [some "a", some "b"]]⟩

def c7Fs : String → Option (ℚ × Option (List (String × Sheet))) :=
  fun n => if n = "f.xlsx" then some (5, some [("S", c7Sheet)]) else none

/-- C7 counterexample: a grid whose marker cell holds the unrecognized token
`"X"` loads successfully as a regular sheet — the claim says loading must
surface a `MalformedTable` error for it. -/
theorem C7_counterexample :
    (load_rule_file c7Fs ⟨[], []⟩ "f.xlsx" false).1.isSome = true ∧
    (parse_sheet c7Sheet "S").isDmnTable = false ∧
    truthy (cellAt c7Sheet 2 1) = true ∧
    hitPolicyTokens.contains (pyStrip ((cellAt c7Sheet 2 1).getD "")) = false := by decide

/-- C7 witness: the claim theorem applied to the unrecognized-marker grid and
to a read error over a warm cache. -/
theorem C7_witness :
    (parse_sheet c7Sheet "S").isDmnTable = false ∧
    (load_rule_file (fun _ => some (7, none))
        ⟨[("f", parse_workbook [] "f")], [("f", 3)]⟩ "f" false).2 =
      ⟨[("f", parse_workbook [] "f")], [("f", 3)]⟩ :=
  ⟨C7_no_malformed_error.1 c7Sheet "S" (by decide),
   C7_no_malformed_error.2 (fun _ => some (7, none))
     ⟨[("f", parse_workbook [] "f")], [("f", 3)]⟩ "f" 7 rfl⟩

/-- C8: corrected — the winning row's unit price and pricing basis are carried
through unchanged, but the quantity multiplication is applied **inside** the
lookup itself: for a per-unit winning row the returned `total_price` equals
the unit price times the context-supplied quantity (and the reported quantity
is the context quantity); for a flat row `total_price` is the unit price and
the quantity is reported as 1. -/
theorem C8_quantity_applied_inside :
    ∀ (rows : List AddRow) (ctx : AddCtx) (c : AddCand),
      get_additional_service_price_advanced rows ctx = some c →
      (∃ r ∈ rows, parseFloat (r.preis.getD "") = some c.pricePerUnit ∧
        c.priceBasis = (if truthy r.preisbasis then r.preisbasis.getD "" else "Container")) ∧
      (if perUnitBases.contains (pyLower c.priceBasis) = true then
          c.totalPrice = c.pricePerUnit.mulInt ctx.quantity ∧ c.quantity = ctx.quantity
       else c.totalPrice = c.pricePerUnit ∧ c.quantity = 1) := by
  intro rows ctx c h
  unfold get_additional_service_price_advanced at h
  cases hcol : collectAdd ctx rows with
  | error e => rw [hcol] at h; simp at h
  | ok ms =>
    rw [hcol] at h
    have hmem : c ∈ ms := head?_sortByKeyDesc_mem AddCand.specificity ms c h
    obtain ⟨r, hr, hcr⟩ := collectAdd_mem ctx rows ms hcol c hmem
    have hf := addRowCand_fields ctx r c hcr
    exact ⟨⟨r, hr, hf.1, hf.2.1⟩, hf.2.2⟩

def c8Row : AddRow :=
  ⟨some "789", none, none, none, none, none, none, none, none, none, none,
   none, none, none, none, none, none, none, some "Einheit", some "50"⟩

def c8Ctx : AddCtx := ⟨"789", none, none, none, none, none, none, none, none, 5⟩

def c8Cand : AddCand := ⟨0, ⟨50, 0⟩, 5, ⟨250, 0⟩, "Einheit", "Service 789"⟩

/-- C8 counterexample: a per-unit row (basis `Einheit`, unit price 50) with
context quantity 5 — the lookup itself returns `total_price = 250`, i.e. the
unit price already multiplied by the context quantity, where the claim says
the returned price is the unmultiplied unit price and multiplication is the
caller's job. -/
theorem C8_counterexample :
    (get_additional_service_price_advanced [c8Row] c8Ctx).map AddCand.totalPrice =
      some ⟨250, 0⟩ ∧
    (get_additional_service_price_advanced [c8Row] c8Ctx).map AddCand.pricePerUnit =
      some ⟨50, 0⟩ ∧
    c8Ctx.quantity = 5 ∧ (Dec.mk 250 0) ≠ Dec.mk 50 0 := by decide

/-- C8 witness: the claim theorem applied to the per-unit scenario. -/
theorem C8_witness :
    (∃ r ∈ [c8Row], parseFloat (r.preis.getD "") = some c8Cand.pricePerUnit ∧
      c8Cand.priceBasis = (if truthy r.preisbasis then r.preisbasis.getD "" else "Container")) ∧
    (if perUnitBases.contains (pyLower c8Cand.priceBasis) = true then
        c8Cand.totalPrice = c8Cand.pricePerUnit.mulInt c8Ctx.quantity ∧
        c8Cand.quantity = c8Ctx.quantity
     else c8Cand.totalPrice = c8Cand.pricePerUnit ∧ c8Cand.quantity = 1) :=
  C8_quantity_applied_inside [c8Row] c8Ctx c8Cand rfl

/-- C9: confirmed — with a fingerprint not newer than the stored one the cache
returns the stored table and leaves the state unchanged (no reload); with a
strictly newer fingerprint it loads and atomically replaces both the stored
table and fingerprint, returning the parse of the new grid; and a repeated
`get` against the resulting state reproduces the same result and state. -/
theorem C9_cache_reload_policy :
    (∀ (fs : String → Option (ℚ × Option (List (String × Sheet)))) (st : CacheState)
       (nm : String) (m : ℚ) (wbOpt : Option (List (String × Sheet))) (rd : RuleData),
      fs nm = some (m, wbOpt) → alookup st.ruleCache nm = some rd →
      m ≤ (alookup st.fileMtimes nm).getD 0 →
      load_rule_file fs st nm false = (some rd, st)) ∧
    (∀ (fs : String → Option (ℚ × Option (List (String × Sheet)))) (st : CacheState)
       (nm : String) (m : ℚ) (wb : List (String × Sheet)),
      fs nm = some (m, some wb) → (alookup st.fileMtimes nm).getD 0 < m →
      load_rule_file fs st nm false =
        (some (parse_workbook wb nm),
         ⟨dset st.ruleCache nm (parse_workbook wb nm), dset st.fileMtimes nm m⟩)) ∧
    (∀ (fs : String → Option (ℚ × Option (List (String × Sheet)))) (st : CacheState)
       (nm : String) (m : ℚ) (wb : List (String × Sheet)),
      fs nm = some (m, some wb) →
      load_rule_file fs (load_rule_file fs st nm false).2 nm false =
        load_rule_file fs st nm false) :=
  ⟨load_rule_file_cached, load_rule_file_reload, load_rule_file_stable⟩

def c9Sheet : Sheet := ⟨2, 2, [[some "T", none], [some "U", some "H"]]⟩

def c9Wb : List (String × Sheet) := [("S", c9Sheet)]

def c9Fs : String → Option (ℚ × Option (List (String × Sheet))) :=
  fun n => if n = "g" then some (5, some c9Wb) else none

/-- C9 witness: a warm cache with an unchanged fingerprint returns the cached
table with the state untouched, and loading twice is idempotent. -/
theorem C9_witness :
    load_rule_file c9Fs ⟨[("g", parse_workbook c9Wb "g")], [("g", 5)]⟩ "g" false =
      (some (parse_workbook c9Wb "g"),
       ⟨[("g", parse_workbook c9Wb "g")], [("g", 5)]⟩) ∧
    load_rule_file c9Fs (load_rule_file c9Fs ⟨[], []⟩ "g" false).2 "g" false =
      load_rule_file c9Fs ⟨[], []⟩ "g" false :=
  ⟨C9_cache_reload_policy.1 c9Fs ⟨[("g", parse_workbook c9Wb "g")], [("g", 5)]⟩ "g" 5
     (some c9Wb) (parse_workbook c9Wb "g") rfl rfl (by decide),
   C9_cache_reload_policy.2.2 c9Fs ⟨[], []⟩ "g" 5 c9Wb rfl⟩
